import Mathlib

/-!
Shallow embedding of the conversation-turn orchestration engine of
`googlesamples/assistant/grpc/pushtotalk.py` (class `SampleAssistant`),
together with the retry policy wrapping `assist` and the outbound
request generator `gen_assist_requests`.

Bytes are modelled as `List Nat`.  The audio `ConversationStream`
(called AudioChannel in the spec) is an external collaborator; it is
modelled from the spec as a record of mode flags plus the list of
chunks written to it, and every operation the engine performs on it is
also recorded in an event trace so that ordering properties can be
stated.
-/

namespace PushToTalk

/-- Microphone-mode values of `DialogStateOut` (proto enum). -/
inductive MicrophoneMode
  | unspecified
  | dialogFollowOn
  | closeMicrophone
  deriving DecidableEq

/-- Event type of an `AssistResponse` (proto enum). -/
inductive EventType
  | unspecified
  | endOfUtterance
  deriving DecidableEq

/-- The `dialog_state_out` sub-message of an inbound `AssistResponse`.
An empty `conversation_state` models the absent/empty bytes field
(falsy in the Python truthiness test of line 181). -/
structure DialogStateOut where
  conversation_state : List Nat
  volume_percentage : Nat
  microphone_mode : MicrophoneMode
  deriving DecidableEq

/-- The `device_action.device_request_json` string field together with
the outcome of `json.loads` on it: `absent` models a missing or empty
string (falsy at line 194), `malformed` a present string on which
`json.loads` raises `ValueError`, and `parsed req` a present string
decoding to the JSON value abstracted as `req`. -/
inductive DeviceRequestJson
  | absent
  | malformed
  | parsed (req : Nat)
  deriving DecidableEq

/-- One inbound `AssistResponse` message, restricted to the fields the
loop of `SampleAssistant.assist` reads. -/
structure AssistResponse where
  event_type : EventType
  speech_results : List String
  audio_out_audio_data : List Nat
  dialog_state_out : DialogStateOut
  device_request_json : DeviceRequestJson
  screen_out_data : List Nat
  deriving DecidableEq

/-- Modelled from the spec: the AudioChannel (`ConversationStream` of
`audio_helpers`, not under `src/`), exposing start/stop recording,
start/stop playback, a current `playing` flag, sample-rate and volume
metadata, and the ordered list of output chunks written to it. -/
structure ChannelState where
  recording : Bool
  playing : Bool
  sample_rate : Nat
  volume_percentage : Nat
  written : List (List Nat)
  deriving DecidableEq

/-- Observable operations the engine performs, in order, during a turn.
`waitActions fs` records the blocking join on the accumulated
device-action futures. -/
inductive Event
  | startRecording
  | stopRecording
  | startPlayback
  | write (data : List Nat)
  | setVolume (v : Nat)
  | display (data : List Nat)
  | waitActions (fs : List Nat)
  | stopPlayback
  deriving DecidableEq

/-- The cross-turn fields of the `SampleAssistant` object
(`__init__`, lines 101-126): static identity parameters, the opaque
conversation-continuation bytes (`[]` models Python `None`), and the
is-new-conversation flag, forced `true` at construction (line 118). -/
structure SampleAssistant where
  language_code : String
  device_model_id : String
  device_id : String
  display : Bool
  conversation_state : List Nat
  is_new_conversation : Bool
  deriving DecidableEq

/-- The per-turn mutable state of one `assist` call: the assistant
object's fields, the audio channel, the `continue_conversation` local
(line 150), the `device_actions_futures` accumulator (line 151,
futures abstracted as `Nat` handles), and the event trace. -/
structure TurnState where
  assistant : SampleAssistant
  channel : ChannelState
  continue_conversation : Bool
  device_actions_futures : List Nat
  trace : List Event
  deriving DecidableEq

/-- `self.conversation_stream.stop_recording()`. -/
def stopRecordingOp (s : TurnState) : TurnState :=
  { s with channel := { s.channel with recording := false },
           trace := s.trace ++ [Event.stopRecording] }

/-- `self.conversation_stream.start_playback()`. -/
def startPlaybackOp (s : TurnState) : TurnState :=
  { s with channel := { s.channel with playing := true },
           trace := s.trace ++ [Event.startPlayback] }

/-- `self.conversation_stream.write(data)`. -/
def writeOp (s : TurnState) (data : List Nat) : TurnState :=
  { s with channel := { s.channel with written := s.channel.written ++ [data] },
           trace := s.trace ++ [Event.write data] }

/-- `self.conversation_stream.volume_percentage = v`. -/
def setVolumeOp (s : TurnState) (v : Nat) : TurnState :=
  { s with channel := { s.channel with volume_percentage := v },
           trace := s.trace ++ [Event.setVolume v] }

/-- `self.conversation_stream.stop_playback()`. -/
def stopPlaybackOp (s : TurnState) : TurnState :=
  { s with channel := { s.channel with playing := false },
           trace := s.trace ++ [Event.stopPlayback] }

/-- `system_browser.display(data)` (fire and forget, trace only). -/
def displayOp (s : TurnState) (data : List Nat) : TurnState :=
  { s with trace := s.trace ++ [Event.display data] }

/-- Errors that can escape the response loop: `json.loads` raising on
a malformed device-action payload (line 195). -/
inductive TurnError
  | jsonDecodeError
  deriving DecidableEq

/-- Lines 167-170: `if resp.event_type == END_OF_UTTERANCE:` stop
recording. -/
def stepEndOfUtterance (s : TurnState) (r : AssistResponse) : TurnState :=
  if r.event_type = EventType.endOfUtterance then stopRecordingOp s else s

/-- Lines 175-180: `if len(resp.audio_out.audio_data) > 0:` — when the
channel is not playing, stop recording then start playback; in either
case write the chunk. -/
def stepAudioOut (s : TurnState) (r : AssistResponse) : TurnState :=
  if 0 < r.audio_out_audio_data.length then
    writeOp
      (if s.channel.playing = false then startPlaybackOp (stopRecordingOp s) else s)
      r.audio_out_audio_data
  else s

/-- Lines 181-184: `if resp.dialog_state_out.conversation_state:`
store the token on the assistant object. -/
def stepConversationState (s : TurnState) (r : AssistResponse) : TurnState :=
  if r.dialog_state_out.conversation_state ≠ [] then
    { s with assistant :=
        { s.assistant with
            conversation_state := r.dialog_state_out.conversation_state } }
  else s

/-- Lines 185-188: `if resp.dialog_state_out.volume_percentage != 0:`
apply the volume to the channel. -/
def stepVolume (s : TurnState) (r : AssistResponse) : TurnState :=
  if r.dialog_state_out.volume_percentage ≠ 0 then
    setVolumeOp s r.dialog_state_out.volume_percentage
  else s

/-- Lines 189-193: follow-on sets `continue_conversation` true,
close-microphone sets it false, anything else leaves it. -/
def stepMicrophoneMode (s : TurnState) (r : AssistResponse) : TurnState :=
  if r.dialog_state_out.microphone_mode = MicrophoneMode.dialogFollowOn then
    { s with continue_conversation := true }
  else if r.dialog_state_out.microphone_mode = MicrophoneMode.closeMicrophone then
    { s with continue_conversation := false }
  else s

/-- Lines 194-200: decode `device_request_json` (raising on malformed
JSON), hand the decoded request to `device_handler`, and accumulate
the returned futures when there are any. -/
def stepDeviceAction (device_handler : Nat → List Nat) (s : TurnState)
    (r : AssistResponse) : TurnState × Option TurnError :=
  match r.device_request_json with
  | DeviceRequestJson.absent => (s, none)
  | DeviceRequestJson.malformed => (s, some TurnError.jsonDecodeError)
  | DeviceRequestJson.parsed req =>
    let fs := device_handler req
    (if fs.length ≠ 0 then
       { s with device_actions_futures := s.device_actions_futures ++ fs }
     else s, none)

/-- Lines 201-203: `if self.display and resp.screen_out.data:` forward
to the display collaborator. -/
def stepScreenOut (s : TurnState) (r : AssistResponse) : TurnState :=
  if s.assistant.display = true ∧ r.screen_out_data ≠ [] then
    displayOp s r.screen_out_data
  else s

/-- The infallible front part of one loop iteration: end-of-utterance,
audio-out, conversation-state, volume and microphone-mode rules in
program order (lines 167-193). -/
def stepPre (s : TurnState) (r : AssistResponse) : TurnState :=
  stepMicrophoneMode
    (stepVolume (stepConversationState (stepAudioOut (stepEndOfUtterance s r) r) r) r) r

/-- One iteration of the response loop of `assist` (lines 164-203),
applying the independent per-message rules in program order.  A raised
JSON decode error aborts the iteration after the statements that
precede it in the body have already taken effect. -/
def processResp (device_handler : Nat → List Nat) (s : TurnState)
    (r : AssistResponse) : TurnState × Option TurnError :=
  match stepDeviceAction device_handler (stepPre s r) r with
  | (s6, none) => (stepScreenOut s6 r, none)
  | (s6, some e) => (s6, some e)

/-- The whole response loop: processes inbound messages strictly in
arrival order, stopping at the first raised error (which propagates,
leaving the rest of the stream unconsumed). -/
def processLoop (device_handler : Nat → List Nat) :
    TurnState → List AssistResponse → TurnState × Option TurnError
  | s, [] => (s, none)
  | s, r :: rest =>
    match processResp device_handler s r with
    | (s1, none) => processLoop device_handler s1 rest
    | (s1, some e) => (s1, some e)

/-- State at the top of `assist` (lines 150-154): fresh locals and
`start_recording` on the channel. -/
def initTurnState (a : SampleAssistant) (ch : ChannelState) : TurnState :=
  { assistant := a
    channel := { ch with recording := true }
    continue_conversation := false
    device_actions_futures := []
    trace := [Event.startRecording] }

/-- Lines 205-210: after the inbound stream is exhausted, join the
accumulated futures when there are any, then stop playback
unconditionally. -/
def assistFinish (s : TurnState) : TurnState :=
  stopPlaybackOp
    (if s.device_actions_futures.length ≠ 0 then
       { s with trace := s.trace ++ [Event.waitActions s.device_actions_futures] }
     else s)

/-- One attempt of `SampleAssistant.assist` (lines 145-211) over a
given inbound message sequence: start recording, drain the loop, and
on normal completion wait for futures and stop playback.  An escaping
error skips the epilogue. -/
def assist (device_handler : Nat → List Nat) (a : SampleAssistant)
    (ch : ChannelState) (resps : List AssistResponse) :
    TurnState × Option TurnError :=
  match processLoop device_handler (initTurnState a ch) resps with
  | (s, none) => (assistFinish s, none)
  | (s, some e) => (s, some e)

/-- The `AssistConfig` proto built by `gen_assist_requests`
(lines 216-237), restricted to the fields it sets. -/
structure AssistConfig where
  language_code : String
  device_model_id : String
  device_id : String
  sample_rate_hertz : Nat
  volume_percentage : Nat
  conversation_state : List Nat
  is_new_conversation : Bool
  screen_mode_playing : Bool
  deriving DecidableEq

/-- An outbound `AssistRequest`: either the one-time config message or
an audio chunk. -/
inductive AssistRequest
  | config (c : AssistConfig)
  | audioIn (data : List Nat)
  deriving DecidableEq

/-- The config message `gen_assist_requests` builds from the assistant
object and the channel metadata (lines 216-237). -/
def assistConfigOf (a : SampleAssistant) (ch : ChannelState) : AssistConfig :=
  { language_code := a.language_code
    device_model_id := a.device_model_id
    device_id := a.device_id
    sample_rate_hertz := ch.sample_rate
    volume_percentage := ch.volume_percentage
    conversation_state := a.conversation_state
    is_new_conversation := a.is_new_conversation
    screen_mode_playing := a.display }

/-- `SampleAssistant.gen_assist_requests` (lines 213-245): builds the
config from the current state, clears `is_new_conversation` before
yielding, yields the config first, then one `audio_in` request per
chunk drained from the conversation stream (`audio`).  Returns the
produced sequence and the updated assistant object. -/
def gen_assist_requests (a : SampleAssistant) (ch : ChannelState)
    (audio : List (List Nat)) : List AssistRequest × SampleAssistant :=
  (AssistRequest.config (assistConfigOf a ch) :: audio.map AssistRequest.audioIn,
   { a with is_new_conversation := false })

/-- Projects the config payload out of an outbound message. -/
def configOf? : AssistRequest → Option AssistConfig
  | AssistRequest.config c => some c
  | AssistRequest.audioIn _ => none

/-- Recognizer for config messages. -/
def isConfig (m : AssistRequest) : Bool :=
  match m with
  | AssistRequest.config _ => true
  | AssistRequest.audioIn _ => false

/-- gRPC status codes distinguished by the retry predicate. -/
inductive StatusCode
  | unavailable
  | deadlineExceeded
  | unauthenticated
  | invalidArgument
  | unknown
  deriving DecidableEq

/-- An exception escaping one `assist` attempt: a `grpc.RpcError`
carrying a status code, or any other exception (e.g. the `ValueError`
of a JSON decode failure). -/
inductive AttemptError
  | rpcError (code : StatusCode)
  | otherException
  deriving DecidableEq

/-- `SampleAssistant.is_grpc_error_unavailable` (lines 136-141): true
exactly for a gRPC error with status `UNAVAILABLE`. -/
def is_grpc_error_unavailable : AttemptError → Bool
  | AttemptError.rpcError StatusCode.unavailable => true
  | _ => false

/-- Outcome of the retry-wrapped call: a returned value, an
immediately re-raised non-retryable exception, or the final transient
exception re-raised (`reraise=True`) after the attempt budget is
exhausted — the spec's `ExhaustedRetries`. -/
inductive RetryOutcome (α : Type)
  | success (a : α)
  | raised (e : AttemptError)
  | exhausted (e : AttemptError)
  deriving DecidableEq

/-- The retry loop of the `tenacity` decorator on `assist`
(lines 143-144): `attempt i` is the result of the i-th call (0-based),
`n` the number of retries still allowed after the current call, `i`
the current attempt index.  Returns the outcome and the total number
of attempts performed. -/
def retryRun {α : Type} (attempt : Nat → Except AttemptError α) :
    Nat → Nat → RetryOutcome α × Nat
  | 0, i =>
    (match attempt i with
     | Except.ok a => (RetryOutcome.success a, i + 1)
     | Except.error e =>
       if is_grpc_error_unavailable e then (RetryOutcome.exhausted e, i + 1)
       else (RetryOutcome.raised e, i + 1))
  | Nat.succ m, i =>
    match attempt i with
    | Except.ok a => (RetryOutcome.success a, i + 1)
    | Except.error e =>
      if is_grpc_error_unavailable e then retryRun attempt m (i + 1)
      else (RetryOutcome.raised e, i + 1)

/-- `RetryPolicy.execute`: `stop_after_attempt(3)` means one initial
attempt plus at most two retries. -/
def RetryPolicy_execute {α : Type} (attempt : Nat → Except AttemptError α) :
    RetryOutcome α × Nat :=
  retryRun attempt 2 0

/-- Modelled from the spec: the AudioChannel close operation of
`ConversationStream` (not under `src/`), abstracted as a counter of
how many times `close()` has run. -/
structure ConversationStream where
  close_count : Nat
  deriving DecidableEq

/-- `SampleAssistant.__exit__` (lines 131-134): when an exception `e`
is propagating, return `False` at once (the stream is not closed and
the exception is not suppressed); otherwise close the stream.  The
boolean argument is whether an exception is propagating; the returned
flag is the (always falsy) suppress-exception value. -/
def SampleAssistant_exit (stream : ConversationStream) (exc : Bool) :
    ConversationStream × Bool :=
  if exc then (stream, false)
  else ({ stream with close_count := stream.close_count + 1 }, false)

/-- All `AssistConfig` messages emitted during a session, in order:
each element of `turns` is one attempt of one turn (its drained audio
chunks and its inbound responses); the attempt runs
`gen_assist_requests` and then the response loop, threading the
assistant object and the channel — exactly the mutations a failed
(later retried) or successful attempt leaves behind. -/
def sessionConfigs (device_handler : Nat → List Nat) :
    SampleAssistant → ChannelState →
    List (List (List Nat) × List AssistResponse) → List AssistConfig
  | _, _, [] => []
  | a, ch, turn :: rest =>
    let g := gen_assist_requests a ch turn.1
    let s := (processLoop device_handler (initTurnState g.2 ch) turn.2).1
    g.1.filterMap configOf? ++ sessionConfigs device_handler s.assistant s.channel rest

/-- True when the message carries a microphone-mode directive, i.e.
its mode is `DIALOG_FOLLOW_ON` or `CLOSE_MICROPHONE`. -/
def carriesMicDirective (r : AssistResponse) : Bool :=
  decide (r.dialog_state_out.microphone_mode = MicrophoneMode.dialogFollowOn) ||
  decide (r.dialog_state_out.microphone_mode = MicrophoneMode.closeMicrophone)

/-- Written from the spec's words, as the refinement target for the
continuation outcome: the turn continues exactly when the last inbound
message carrying a microphone-mode directive set `DIALOG_FOLLOW_ON`;
with no directive at all the outcome is false. -/
def specContinueConversation (resps : List AssistResponse) : Bool :=
  match (resps.filter carriesMicDirective).getLast? with
  | some r => decide (r.dialog_state_out.microphone_mode = MicrophoneMode.dialogFollowOn)
  | none => false

/-- Generalization of `specContinueConversation` to an arbitrary
default for streams with no directive. -/
def specLastMic (acc : Bool) (resps : List AssistResponse) : Bool :=
  match (resps.filter carriesMicDirective).getLast? with
  | some r => decide (r.dialog_state_out.microphone_mode = MicrophoneMode.dialogFollowOn)
  | none => acc

/-- The effect of one message on the `continue_conversation` local
(lines 189-193), abstracted to the boolean alone. -/
def micStep (acc : Bool) (r : AssistResponse) : Bool :=
  if r.dialog_state_out.microphone_mode = MicrophoneMode.dialogFollowOn then true
  else if r.dialog_state_out.microphone_mode = MicrophoneMode.closeMicrophone then false
  else acc

/-- Folding `micStep` over a stream. -/
def micFold (acc : Bool) : List AssistResponse → Bool
  | [] => acc
  | r :: rs => micFold (micStep acc r) rs

/-- The non-empty audio-out payloads of a stream, in arrival order. -/
def arrivalAudio (resps : List AssistResponse) : List (List Nat) :=
  resps.filterMap fun r =>
    if 0 < r.audio_out_audio_data.length then some r.audio_out_audio_data else none

/-- Fixture: a device handler returning one future handle. -/
def handler0 : Nat → List Nat := fun _ => [7]

/-- Fixture: a fresh assistant object as built by `__init__`. -/
def assistant0 : SampleAssistant :=
  { language_code := "en-US", device_model_id := "model", device_id := "device"
    display := false, conversation_state := [], is_new_conversation := true }

/-- Fixture: an idle audio channel. -/
def channel0 : ChannelState :=
  { recording := false, playing := false, sample_rate := 16000
    volume_percentage := 50, written := [] }

/-- Fixture: an all-absent dialog state. -/
def dso0 : DialogStateOut :=
  { conversation_state := [], volume_percentage := 0
    microphone_mode := MicrophoneMode.unspecified }

/-- Fixture: an inbound message with every optional field absent. -/
def resp0 : AssistResponse :=
  { event_type := EventType.unspecified, speech_results := []
    audio_out_audio_data := [], dialog_state_out := dso0
    device_request_json := DeviceRequestJson.absent, screen_out_data := [] }

/-- Fixture: a message carrying two bytes of output audio. -/
def respAudio : AssistResponse := { resp0 with audio_out_audio_data := [1, 2] }

/-- Fixture: a message carrying a `DIALOG_FOLLOW_ON` directive. -/
def respFollowOn : AssistResponse :=
  { resp0 with dialog_state_out := { dso0 with microphone_mode := MicrophoneMode.dialogFollowOn } }

/-- Fixture: a message carrying a `CLOSE_MICROPHONE` directive. -/
def respClose : AssistResponse :=
  { resp0 with dialog_state_out := { dso0 with microphone_mode := MicrophoneMode.closeMicrophone } }

/-- Fixture: a message whose device-action JSON fails to parse. -/
def respMalformed : AssistResponse :=
  { resp0 with device_request_json := DeviceRequestJson.malformed }

/-- Fixture: a message carrying a continuation token. -/
def respToken : AssistResponse :=
  { resp0 with dialog_state_out := { dso0 with conversation_state := [9, 8] } }

/-- Fixture: a message with a device action that parses. -/
def respDevice : AssistResponse :=
  { resp0 with device_request_json := DeviceRequestJson.parsed 3 }

/-- Fixture: the per-turn state at the top of `assist`. -/
def turn0 : TurnState := initTurnState assistant0 channel0

/-- End-of-utterance handling leaves the playing flag alone. -/
@[simp] theorem stepEndOfUtterance_playing (s : TurnState) (r : AssistResponse) :
    (stepEndOfUtterance s r).channel.playing = s.channel.playing := by
  unfold stepEndOfUtterance stopRecordingOp; split <;> rfl

/-- End-of-utterance handling writes no audio. -/
@[simp] theorem stepEndOfUtterance_written (s : TurnState) (r : AssistResponse) :
    (stepEndOfUtterance s r).channel.written = s.channel.written := by
  unfold stepEndOfUtterance stopRecordingOp; split <;> rfl

/-- End-of-utterance handling does not touch the continuation flag. -/
@[simp] theorem stepEndOfUtterance_continue (s : TurnState) (r : AssistResponse) :
    (stepEndOfUtterance s r).continue_conversation = s.continue_conversation := by
  unfold stepEndOfUtterance stopRecordingOp; split <;> rfl

/-- End-of-utterance handling does not touch the assistant object. -/
@[simp] theorem stepEndOfUtterance_assistant (s : TurnState) (r : AssistResponse) :
    (stepEndOfUtterance s r).assistant = s.assistant := by
  unfold stepEndOfUtterance stopRecordingOp; split <;> rfl

/-- End-of-utterance handling does not touch the futures. -/
@[simp] theorem stepEndOfUtterance_futures (s : TurnState) (r : AssistResponse) :
    (stepEndOfUtterance s r).device_actions_futures = s.device_actions_futures := by
  unfold stepEndOfUtterance stopRecordingOp; split <;> rfl

/-- After the audio-out rule the channel is playing exactly when the
message carried audio or it was already playing. -/
@[simp] theorem stepAudioOut_playing (s : TurnState) (r : AssistResponse) :
    (stepAudioOut s r).channel.playing =
      if 0 < r.audio_out_audio_data.length then true else s.channel.playing := by
  unfold stepAudioOut writeOp startPlaybackOp stopRecordingOp
  split
  · split
    · rfl
    · rename_i h; simp at h; simp [h]
  · rfl

/-- The audio-out rule appends exactly the non-empty payload. -/
@[simp] theorem stepAudioOut_written (s : TurnState) (r : AssistResponse) :
    (stepAudioOut s r).channel.written =
      s.channel.written ++
        (if 0 < r.audio_out_audio_data.length then [r.audio_out_audio_data] else []) := by
  unfold stepAudioOut writeOp startPlaybackOp stopRecordingOp
  split
  · split <;> rfl
  · simp

/-- A non-empty audio chunk arriving while not playing stops recording. -/
theorem stepAudioOut_recording_stopped (s : TurnState) (r : AssistResponse)
    (hne : 0 < r.audio_out_audio_data.length) (hp : s.channel.playing = false) :
    (stepAudioOut s r).channel.recording = false := by
  unfold stepAudioOut writeOp startPlaybackOp stopRecordingOp
  simp [hne, hp]

/-- The audio-out rule does not touch the continuation flag. -/
@[simp] theorem stepAudioOut_continue (s : TurnState) (r : AssistResponse) :
    (stepAudioOut s r).continue_conversation = s.continue_conversation := by
  unfold stepAudioOut writeOp startPlaybackOp stopRecordingOp
  split
  · split <;> rfl
  · rfl

/-- The audio-out rule does not touch the assistant object. -/
@[simp] theorem stepAudioOut_assistant (s : TurnState) (r : AssistResponse) :
    (stepAudioOut s r).assistant = s.assistant := by
  unfold stepAudioOut writeOp startPlaybackOp stopRecordingOp
  split
  · split <;> rfl
  · rfl

/-- The audio-out rule does not touch the futures. -/
@[simp] theorem stepAudioOut_futures (s : TurnState) (r : AssistResponse) :
    (stepAudioOut s r).device_actions_futures = s.device_actions_futures := by
  unfold stepAudioOut writeOp startPlaybackOp stopRecordingOp
  split
  · split <;> rfl
  · rfl

/-- The conversation-state rule does not touch the channel. -/
@[simp] theorem stepConversationState_channel (s : TurnState) (r : AssistResponse) :
    (stepConversationState s r).channel = s.channel := by
  unfold stepConversationState; split <;> rfl

/-- The conversation-state rule does not touch the continuation flag. -/
@[simp] theorem stepConversationState_continue (s : TurnState) (r : AssistResponse) :
    (stepConversationState s r).continue_conversation = s.continue_conversation := by
  unfold stepConversationState; split <;> rfl

/-- The conversation-state rule does not touch the futures. -/
@[simp] theorem stepConversationState_futures (s : TurnState) (r : AssistResponse) :
    (stepConversationState s r).device_actions_futures = s.device_actions_futures := by
  unfold stepConversationState; split <;> rfl

/-- The conversation-state rule stores a present token verbatim and
otherwise keeps the old one. -/
@[simp] theorem stepConversationState_token (s : TurnState) (r : AssistResponse) :
    (stepConversationState s r).assistant.conversation_state =
      if r.dialog_state_out.conversation_state ≠ [] then
        r.dialog_state_out.conversation_state
      else s.assistant.conversation_state := by
  unfold stepConversationState; split <;> rfl

/-- The conversation-state rule never touches the is-new flag. -/
@[simp] theorem stepConversationState_is_new (s : TurnState) (r : AssistResponse) :
    (stepConversationState s r).assistant.is_new_conversation =
      s.assistant.is_new_conversation := by
  unfold stepConversationState; split <;> rfl

/-- The volume rule leaves the playing flag alone. -/
@[simp] theorem stepVolume_playing (s : TurnState) (r : AssistResponse) :
    (stepVolume s r).channel.playing = s.channel.playing := by
  unfold stepVolume setVolumeOp; split <;> rfl

/-- The volume rule leaves the recording flag alone. -/
@[simp] theorem stepVolume_recording (s : TurnState) (r : AssistResponse) :
    (stepVolume s r).channel.recording = s.channel.recording := by
  unfold stepVolume setVolumeOp; split <;> rfl

/-- The volume rule writes no audio. -/
@[simp] theorem stepVolume_written (s : TurnState) (r : AssistResponse) :
    (stepVolume s r).channel.written = s.channel.written := by
  unfold stepVolume setVolumeOp; split <;> rfl

/-- The volume rule does not touch the continuation flag. -/
@[simp] theorem stepVolume_continue (s : TurnState) (r : AssistResponse) :
    (stepVolume s r).continue_conversation = s.continue_conversation := by
  unfold stepVolume setVolumeOp; split <;> rfl

/-- The volume rule does not touch the assistant object. -/
@[simp] theorem stepVolume_assistant (s : TurnState) (r : AssistResponse) :
    (stepVolume s r).assistant = s.assistant := by
  unfold stepVolume setVolumeOp; split <;> rfl

/-- The volume rule does not touch the futures. -/
@[simp] theorem stepVolume_futures (s : TurnState) (r : AssistResponse) :
    (stepVolume s r).device_actions_futures = s.device_actions_futures := by
  unfold stepVolume setVolumeOp; split <;> rfl

/-- The microphone-mode rule does not touch the channel. -/
@[simp] theorem stepMicrophoneMode_channel (s : TurnState) (r : AssistResponse) :
    (stepMicrophoneMode s r).channel = s.channel := by
  unfold stepMicrophoneMode; split <;> [rfl; split <;> rfl]

/-- The microphone-mode rule does not touch the assistant object. -/
@[simp] theorem stepMicrophoneMode_assistant (s : TurnState) (r : AssistResponse) :
    (stepMicrophoneMode s r).assistant = s.assistant := by
  unfold stepMicrophoneMode; split <;> [rfl; split <;> rfl]

/-- The microphone-mode rule does not touch the futures. -/
@[simp] theorem stepMicrophoneMode_futures (s : TurnState) (r : AssistResponse) :
    (stepMicrophoneMode s r).device_actions_futures = s.device_actions_futures := by
  unfold stepMicrophoneMode; split <;> [rfl; split <;> rfl]

/-- The microphone-mode rule updates the continuation flag by `micStep`. -/
@[simp] theorem stepMicrophoneMode_continue (s : TurnState) (r : AssistResponse) :
    (stepMicrophoneMode s r).continue_conversation =
      micStep s.continue_conversation r := by
  unfold stepMicrophoneMode micStep; split <;> [rfl; split <;> rfl]

/-- The device-action rule does not touch the channel. -/
@[simp] theorem stepDeviceAction_channel (h : Nat → List Nat) (s : TurnState)
    (r : AssistResponse) : ((stepDeviceAction h s r).1).channel = s.channel := by
  unfold stepDeviceAction
  rcases r.device_request_json with _ | _ | req <;> simp
  split <;> rfl

/-- The device-action rule does not touch the continuation flag. -/
@[simp] theorem stepDeviceAction_continue (h : Nat → List Nat) (s : TurnState)
    (r : AssistResponse) :
    ((stepDeviceAction h s r).1).continue_conversation = s.continue_conversation := by
  unfold stepDeviceAction
  rcases r.device_request_json with _ | _ | req <;> simp
  split <;> rfl

/-- The device-action rule does not touch the assistant object. -/
@[simp] theorem stepDeviceAction_assistant (h : Nat → List Nat) (s : TurnState)
    (r : AssistResponse) :
    ((stepDeviceAction h s r).1).assistant = s.assistant := by
  unfold stepDeviceAction
  rcases r.device_request_json with _ | _ | req <;> simp
  split <;> rfl

/-- The device-action rule raises exactly on malformed JSON. -/
@[simp] theorem stepDeviceAction_snd (h : Nat → List Nat) (s : TurnState)
    (r : AssistResponse) :
    (stepDeviceAction h s r).2 =
      if r.device_request_json = DeviceRequestJson.malformed then
        some TurnError.jsonDecodeError
      else none := by
  unfold stepDeviceAction
  rcases hj : r.device_request_json with _ | _ | req <;> simp

/-- The screen-out rule only appends to the trace. -/
@[simp] theorem stepScreenOut_channel (s : TurnState) (r : AssistResponse) :
    (stepScreenOut s r).channel = s.channel := by
  unfold stepScreenOut displayOp; split <;> rfl

/-- The screen-out rule does not touch the continuation flag. -/
@[simp] theorem stepScreenOut_continue (s : TurnState) (r : AssistResponse) :
    (stepScreenOut s r).continue_conversation = s.continue_conversation := by
  unfold stepScreenOut displayOp; split <;> rfl

/-- The screen-out rule does not touch the assistant object. -/
@[simp] theorem stepScreenOut_assistant (s : TurnState) (r : AssistResponse) :
    (stepScreenOut s r).assistant = s.assistant := by
  unfold stepScreenOut displayOp; split <;> rfl

/-- The screen-out rule does not touch the futures. -/
@[simp] theorem stepScreenOut_futures (s : TurnState) (r : AssistResponse) :
    (stepScreenOut s r).device_actions_futures = s.device_actions_futures := by
  unfold stepScreenOut displayOp; split <;> rfl

/-- One loop iteration drives the channel exactly as the infallible
front part does: the device-action and screen rules never touch it. -/
theorem processResp_fst_channel (h : Nat → List Nat) (s : TurnState)
    (r : AssistResponse) :
    ((processResp h s r).1).channel = (stepPre s r).channel := by
  unfold processResp
  rcases hd : stepDeviceAction h (stepPre s r) r with ⟨s6, e⟩
  have hc := stepDeviceAction_channel h (stepPre s r) r
  rw [hd] at hc
  cases e <;> simpa using hc

/-- One loop iteration sets the playing flag exactly when the message
carried audio, and otherwise leaves it alone. -/
theorem processResp_playing (h : Nat → List Nat) (s : TurnState) (r : AssistResponse) :
    ((processResp h s r).1).channel.playing =
      if 0 < r.audio_out_audio_data.length then true else s.channel.playing := by
  rw [processResp_fst_channel]; simp [stepPre]

/-- One loop iteration appends exactly the message's non-empty
audio-out payload to the channel. -/
theorem processResp_written (h : Nat → List Nat) (s : TurnState) (r : AssistResponse) :
    ((processResp h s r).1).channel.written =
      s.channel.written ++
        (if 0 < r.audio_out_audio_data.length then [r.audio_out_audio_data] else []) := by
  rw [processResp_fst_channel]; simp [stepPre]

/-- A non-empty audio chunk processed while the channel is not playing
leaves recording stopped. -/
theorem processResp_recording (h : Nat → List Nat) (s : TurnState) (r : AssistResponse)
    (hne : 0 < r.audio_out_audio_data.length) (hp : s.channel.playing = false) :
    ((processResp h s r).1).channel.recording = false := by
  rw [processResp_fst_channel]
  unfold stepPre
  rw [stepMicrophoneMode_channel, stepVolume_recording, stepConversationState_channel]
  exact stepAudioOut_recording_stopped _ _ hne (by simp [hp])

/-- One loop iteration updates the continuation flag by `micStep`. -/
theorem processResp_continue (h : Nat → List Nat) (s : TurnState) (r : AssistResponse) :
    ((processResp h s r).1).continue_conversation =
      micStep s.continue_conversation r := by
  unfold processResp
  rcases hd : stepDeviceAction h (stepPre s r) r with ⟨s6, e⟩
  have hc := stepDeviceAction_continue h (stepPre s r) r
  rw [hd] at hc
  have hp : (stepPre s r).continue_conversation = micStep s.continue_conversation r := by
    simp [stepPre]
  rw [hp] at hc
  cases e <;> simpa using hc

/-- One loop iteration leaves the assistant object exactly as the
conversation-state rule does. -/
theorem processResp_fst_assistant (h : Nat → List Nat) (s : TurnState)
    (r : AssistResponse) :
    ((processResp h s r).1).assistant = (stepPre s r).assistant := by
  unfold processResp
  rcases hd : stepDeviceAction h (stepPre s r) r with ⟨s6, e⟩
  have hc := stepDeviceAction_assistant h (stepPre s r) r
  rw [hd] at hc
  cases e <;> simpa using hc

/-- One loop iteration stores a present continuation token verbatim
and otherwise keeps the old one. -/
theorem processResp_token (h : Nat → List Nat) (s : TurnState) (r : AssistResponse) :
    ((processResp h s r).1).assistant.conversation_state =
      if r.dialog_state_out.conversation_state ≠ [] then
        r.dialog_state_out.conversation_state
      else s.assistant.conversation_state := by
  rw [processResp_fst_assistant]; simp [stepPre]

/-- One loop iteration never touches the is-new-conversation flag. -/
theorem processResp_is_new (h : Nat → List Nat) (s : TurnState) (r : AssistResponse) :
    ((processResp h s r).1).assistant.is_new_conversation =
      s.assistant.is_new_conversation := by
  rw [processResp_fst_assistant]; simp [stepPre]

/-- One loop iteration raises exactly on malformed device-action JSON. -/
theorem processResp_err (h : Nat → List Nat) (s : TurnState) (r : AssistResponse) :
    (processResp h s r).2 =
      if r.device_request_json = DeviceRequestJson.malformed then
        some TurnError.jsonDecodeError
      else none := by
  unfold processResp
  rcases hd : stepDeviceAction h (stepPre s r) r with ⟨s6, e⟩
  have hs := stepDeviceAction_snd h (stepPre s r) r
  rw [hd] at hs
  cases e <;> simpa using hs

/-- On a successfully drained stream the continuation flag is the fold
of the per-message rule over the stream. -/
theorem processLoop_continue (h : Nat → List Nat) (rs : List AssistResponse) :
    ∀ s : TurnState, (processLoop h s rs).2 = none →
      ((processLoop h s rs).1).continue_conversation =
        micFold s.continue_conversation rs := by
  induction rs with
  | nil => intro s _; rfl
  | cons r rest ih =>
    intro s hok
    simp only [processLoop] at hok ⊢
    rcases hp : processResp h s r with ⟨s1, e⟩
    rw [hp] at hok
    cases e with
    | none =>
      have h1 : s1.continue_conversation = micStep s.continue_conversation r := by
        rw [← processResp_continue h s r, hp]
      simp only [micFold, ← h1]
      exact ih s1 hok
    | some e => simp at hok

/-- On a successfully drained stream the chunks written to the channel
are exactly the non-empty audio-out payloads in arrival order. -/
theorem processLoop_written (h : Nat → List Nat) (rs : List AssistResponse) :
    ∀ s : TurnState, (processLoop h s rs).2 = none →
      ((processLoop h s rs).1).channel.written =
        s.channel.written ++ arrivalAudio rs := by
  induction rs with
  | nil => intro s _; simp [processLoop, arrivalAudio]
  | cons r rest ih =>
    intro s hok
    simp only [processLoop] at hok ⊢
    rcases hp : processResp h s r with ⟨s1, e⟩
    rw [hp] at hok
    cases e with
    | none =>
      have h1 : s1.channel.written =
          s.channel.written ++
            (if 0 < r.audio_out_audio_data.length then [r.audio_out_audio_data] else []) := by
        rw [← processResp_written h s r, hp]
      rw [ih s1 hok, h1]
      simp only [arrivalAudio, List.filterMap_cons]
      split <;> simp_all
    | some e => simp at hok

/-- The response loop never touches the is-new-conversation flag, even
when it aborts on an error. -/
theorem processLoop_is_new (h : Nat → List Nat) (rs : List AssistResponse) :
    ∀ s : TurnState,
      ((processLoop h s rs).1).assistant.is_new_conversation =
        s.assistant.is_new_conversation := by
  induction rs with
  | nil => intro s; rfl
  | cons r rest ih =>
    intro s
    simp only [processLoop]
    rcases hp : processResp h s r with ⟨s1, e⟩
    have h1 : s1.assistant.is_new_conversation = s.assistant.is_new_conversation := by
      rw [← processResp_is_new h s r, hp]
    cases e with
    | none => rw [ih s1, h1]
    | some e => exact h1

/-- Splitting the response loop at an arbitrary point: the suffix runs
only if the prefix drained without error. -/
theorem processLoop_append (h : Nat → List Nat) (xs ys : List AssistResponse) :
    ∀ s : TurnState,
      processLoop h s (xs ++ ys) =
        match processLoop h s xs with
        | (s1, none) => processLoop h s1 ys
        | (s1, some e) => (s1, some e) := by
  induction xs with
  | nil => intro s; rfl
  | cons r rest ih =>
    intro s
    simp only [List.cons_append, processLoop]
    rcases hp : processResp h s r with ⟨s1, e⟩
    cases e with
    | none => exact ih s1
    | some e => rfl

/-- Folding the microphone rule distributes over append. -/
theorem micFold_append (l1 l2 : List AssistResponse) :
    ∀ acc, micFold acc (l1 ++ l2) = micFold (micFold acc l1) l2 := by
  induction l1 with
  | nil => intro acc; rfl
  | cons r rest ih => intro acc; simp only [List.cons_append, micFold]; exact ih _

/-- Characterization of messages carrying a microphone directive. -/
theorem carriesMicDirective_iff (r : AssistResponse) :
    carriesMicDirective r = true ↔
      r.dialog_state_out.microphone_mode = MicrophoneMode.dialogFollowOn
      ∨ r.dialog_state_out.microphone_mode = MicrophoneMode.closeMicrophone := by
  simp [carriesMicDirective]

/-- The imperative last-writer-wins fold agrees with the spec's
formulation via the last directive-carrying message. -/
theorem micFold_eq_specLastMic (resps : List AssistResponse) :
    ∀ acc, micFold acc resps = specLastMic acc resps := by
  induction resps using List.reverseRecOn with
  | nil => intro acc; rfl
  | append_singleton l r ih =>
    intro acc
    rw [micFold_append]
    have hone : micFold (micFold acc l) [r] = micStep (micFold acc l) r := rfl
    rw [hone, ih acc]
    by_cases hc : carriesMicDirective r = true
    · have hfil : (l ++ [r]).filter carriesMicDirective =
          l.filter carriesMicDirective ++ [r] := by
        simp [List.filter_append, hc]
      rcases (carriesMicDirective_iff r).1 hc with hm | hm
      · simp [specLastMic, hfil, List.getLast?_concat, micStep, hm]
      · simp [specLastMic, hfil, List.getLast?_concat, micStep, hm]
    · have hfil : (l ++ [r]).filter carriesMicDirective =
          l.filter carriesMicDirective := by
        simp [List.filter_append, hc]
      have hnd := hc
      simp only [carriesMicDirective, Bool.or_eq_true, decide_eq_true_eq,
        not_or] at hnd
      have hns : micStep (specLastMic acc l) r = specLastMic acc l := by
        simp [micStep, hnd.1, hnd.2]
      rw [hns]
      simp [specLastMic, hfil]

/-- The default-false instance of the spec formulation. -/
theorem specContinueConversation_eq (resps : List AssistResponse) :
    specContinueConversation resps = specLastMic false resps := by
  unfold specContinueConversation specLastMic
  rfl

/-- The epilogue does not touch the continuation flag. -/
theorem assistFinish_continue (s : TurnState) :
    (assistFinish s).continue_conversation = s.continue_conversation := by
  unfold assistFinish stopPlaybackOp; split <;> rfl

/-- The epilogue does not touch the assistant object. -/
theorem assistFinish_assistant (s : TurnState) :
    (assistFinish s).assistant = s.assistant := by
  unfold assistFinish stopPlaybackOp; split <;> rfl

/-- The epilogue does not touch the futures. -/
theorem assistFinish_futures (s : TurnState) :
    (assistFinish s).device_actions_futures = s.device_actions_futures := by
  unfold assistFinish stopPlaybackOp; split <;> rfl

/-- The epilogue writes no audio. -/
theorem assistFinish_written (s : TurnState) :
    (assistFinish s).channel.written = s.channel.written := by
  unfold assistFinish stopPlaybackOp; split <;> rfl

/-- The epilogue always leaves the channel not playing. -/
theorem assistFinish_playing (s : TurnState) :
    (assistFinish s).channel.playing = false := by
  unfold assistFinish stopPlaybackOp; split <;> rfl

/-- The epilogue appends exactly the join-on-futures event (when any
futures were accumulated) followed by the stop-playback event. -/
theorem assistFinish_trace (s : TurnState) :
    (assistFinish s).trace =
      s.trace ++
        (if s.device_actions_futures.length ≠ 0 then
           [Event.waitActions s.device_actions_futures] else []) ++
        [Event.stopPlayback] := by
  unfold assistFinish stopPlaybackOp
  split <;> simp

/-- A turn that completed without error ran the loop without error and
its final state is the epilogue of the loop's final state. -/
theorem assist_ok_split (h : Nat → List Nat) (a : SampleAssistant)
    (ch : ChannelState) (resps : List AssistResponse) :
    (assist h a ch resps).2 = none →
      (processLoop h (initTurnState a ch) resps).2 = none
      ∧ (assist h a ch resps).1 =
          assistFinish (processLoop h (initTurnState a ch) resps).1 := by
  unfold assist
  rcases hl : processLoop h (initTurnState a ch) resps with ⟨s, e⟩
  cases e with
  | none => intro _; exact ⟨rfl, rfl⟩
  | some e => intro hcon; simp at hcon

/-- Audio chunk messages contribute no configs. -/
theorem audioIn_filterMap (audio : List (List Nat)) :
    (audio.map AssistRequest.audioIn).filterMap configOf? = [] := by
  induction audio with
  | nil => rfl
  | cons d rest ih => simp only [List.map_cons, List.filterMap_cons, configOf?]; exact ih

/-- Audio chunk messages are never counted as configs. -/
theorem audioIn_countP (audio : List (List Nat)) :
    (audio.map AssistRequest.audioIn).countP isConfig = 0 := by
  induction audio with
  | nil => rfl
  | cons d rest ih => simp only [List.map_cons, List.countP_cons, isConfig]; simpa using ih

/-- The config messages of one generated request sequence: exactly the
one built from the pre-call state. -/
theorem gen_configs (a : SampleAssistant) (ch : ChannelState)
    (audio : List (List Nat)) :
    (gen_assist_requests a ch audio).1.filterMap configOf? = [assistConfigOf a ch] := by
  simp only [gen_assist_requests, List.filterMap_cons, configOf?]
  rw [audioIn_filterMap]

/-- Once the is-new flag is false, every config a session emits from
then on carries false. -/
theorem sessionConfigs_all_false (h : Nat → List Nat)
    (turns : List (List (List Nat) × List AssistResponse)) :
    ∀ (a : SampleAssistant) (ch : ChannelState), a.is_new_conversation = false →
      ∀ c ∈ sessionConfigs h a ch turns, c.is_new_conversation = false := by
  induction turns with
  | nil => intro a ch _ c hc; simp [sessionConfigs] at hc
  | cons turn rest ih =>
    intro a ch hfalse c hc
    simp only [sessionConfigs, gen_configs] at hc
    rcases List.mem_append.1 hc with hc1 | hc2
    · have : c = assistConfigOf a ch := by simpa using hc1
      rw [this]
      exact hfalse
    · refine ih _ _ ?_ c hc2
      rw [processLoop_is_new]
      simp [initTurnState, gen_assist_requests]

/-- The retry loop performs at most one more attempt than it has
retries left. -/
theorem retryRun_count {α : Type} (attempt : Nat → Except AttemptError α) :
    ∀ n i, (retryRun attempt n i).2 ≤ i + n + 1 := by
  intro n
  induction n with
  | zero =>
    intro i
    cases hai : attempt i with
    | ok a => simp [retryRun, hai]
    | error e =>
      simp only [retryRun, hai]
      split <;> simp
  | succ m ih =>
    intro i
    cases hai : attempt i with
    | ok a => simp [retryRun, hai]
    | error e =>
      simp only [retryRun, hai]
      split
      · have := ih (i + 1)
        omega
      · show i + 1 ≤ i + (m + 1) + 1
        omega

/-- The retry loop inspects only the attempts within its budget. -/
theorem retryRun_congr {α : Type} (attempt attempt2 : Nat → Except AttemptError α) :
    ∀ n i, (∀ j, i ≤ j → j ≤ i + n → attempt j = attempt2 j) →
      retryRun attempt n i = retryRun attempt2 n i := by
  intro n
  induction n with
  | zero =>
    intro i hagree
    have h0 : attempt i = attempt2 i := hagree i (Nat.le_refl i) (by omega)
    simp only [retryRun, h0]
  | succ m ih =>
    intro i hagree
    have h0 : attempt i = attempt2 i := hagree i (Nat.le_refl i) (by omega)
    simp only [retryRun, h0]
    cases hai : attempt2 i with
    | ok a => rfl
    | error e =>
      by_cases ht : is_grpc_error_unavailable e = true
      · simp only [ht, if_true]
        exact ih (i + 1) fun j hj1 hj2 => hagree j (by omega) (by omega)
      · simp [ht]

/-- Running the loop on a single message is exactly one iteration. -/
theorem processLoop_singleton (h : Nat → List Nat) (s : TurnState)
    (r : AssistResponse) : processLoop h s [r] = processResp h s r := by
  simp only [processLoop]
  rcases hp : processResp h s r with ⟨s1, e⟩
  cases e <;> rfl

/-- With no follow-on directive anywhere, the fold stays false. -/
theorem micFold_false_of_no_followOn : ∀ resps : List AssistResponse,
    (∀ r ∈ resps,
      r.dialog_state_out.microphone_mode ≠ MicrophoneMode.dialogFollowOn) →
    micFold false resps = false := by
  intro resps
  induction resps with
  | nil => intro _; rfl
  | cons r rest ih =>
    intro hnf
    have hr := hnf r (List.mem_cons_self r rest)
    have hstep : micStep false r = false := by simp [micStep, hr]
    simp only [micFold, hstep]
    exact ih fun x hx => hnf x (List.mem_cons_of_mem _ hx)

/-- C1: an inbound message with empty `audioOut.audioData` never
transitions the channel into Playing; a message with non-empty audio
arriving while the channel is not playing stops recording (whether or
not an end-of-utterance was seen) and starts playback, writing its
bytes; and over a completed turn the chunks written to the channel are
exactly the non-empty audio payloads, in arrival order. -/
theorem claim_C1 (h : Nat → List Nat) (s : TurnState) (r : AssistResponse)
    (a : SampleAssistant) (ch : ChannelState) (resps : List AssistResponse) :
    (r.audio_out_audio_data = [] →
       ((processResp h s r).1).channel.playing = s.channel.playing)
    ∧ (r.audio_out_audio_data ≠ [] → s.channel.playing = false →
       ((processResp h s r).1).channel.recording = false
       ∧ ((processResp h s r).1).channel.playing = true
       ∧ ((processResp h s r).1).channel.written =
           s.channel.written ++ [r.audio_out_audio_data])
    ∧ ((assist h a ch resps).2 = none →
       ((assist h a ch resps).1).channel.written =
         ch.written ++ arrivalAudio resps) := by
  refine ⟨?_, ?_, ?_⟩
  · intro hemp
    rw [processResp_playing]
    simp [hemp]
  · intro hne hp
    have hlen : 0 < r.audio_out_audio_data.length := List.length_pos.2 hne
    refine ⟨processResp_recording h s r hlen hp, ?_, ?_⟩
    · rw [processResp_playing]; simp [hlen]
    · rw [processResp_written]; simp [hlen]
  · intro hok
    obtain ⟨hl, he⟩ := assist_ok_split h a ch resps hok
    rw [he, assistFinish_written, processLoop_written h resps _ hl]
    simp [initTurnState]

/-- Witness for C1: the empty-audio message leaves the idle channel
not playing; the two-byte audio message stops recording, starts
playback and appends its chunk; a one-message turn writes exactly the
arrival-order audio. -/
theorem claim_C1_witness :
    (resp0.audio_out_audio_data = []
      ∧ ((processResp handler0 turn0 resp0).1).channel.playing = turn0.channel.playing)
    ∧ (respAudio.audio_out_audio_data ≠ []
      ∧ turn0.channel.playing = false
      ∧ (((processResp handler0 turn0 respAudio).1).channel.recording = false
         ∧ ((processResp handler0 turn0 respAudio).1).channel.playing = true
         ∧ ((processResp handler0 turn0 respAudio).1).channel.written =
             turn0.channel.written ++ [respAudio.audio_out_audio_data]))
    ∧ ((assist handler0 assistant0 channel0 [respAudio]).2 = none
      ∧ ((assist handler0 assistant0 channel0 [respAudio]).1).channel.written =
          channel0.written ++ arrivalAudio [respAudio]) :=
  ⟨⟨rfl, (claim_C1 handler0 turn0 resp0 assistant0 channel0 []).1 rfl⟩,
   ⟨by decide, rfl,
     (claim_C1 handler0 turn0 respAudio assistant0 channel0 []).2.1 (by decide) rfl⟩,
   ⟨by decide,
     (claim_C1 handler0 turn0 resp0 assistant0 channel0 [respAudio]).2.2 (by decide)⟩⟩

/-- C2: over a completed turn the returned continuation flag is true
exactly when the last inbound message carrying a microphone-mode
directive set `DIALOG_FOLLOW_ON` — last writer wins within the turn. -/
theorem claim_C2 (h : Nat → List Nat) (a : SampleAssistant) (ch : ChannelState)
    (resps : List AssistResponse) :
    (assist h a ch resps).2 = none →
    ((assist h a ch resps).1).continue_conversation =
      specContinueConversation resps := by
  intro hok
  obtain ⟨hl, he⟩ := assist_ok_split h a ch resps hok
  rw [he, assistFinish_continue, processLoop_continue h resps _ hl,
    specContinueConversation_eq, ← micFold_eq_specLastMic]
  have hinit : (initTurnState a ch).continue_conversation = false := rfl
  rw [hinit]

/-- Witness for C2: a follow-on directive as the only message makes
the turn continue. -/
theorem claim_C2_witness :
    (assist handler0 assistant0 channel0 [respFollowOn]).2 = none
    ∧ ((assist handler0 assistant0 channel0 [respFollowOn]).1).continue_conversation =
        specContinueConversation [respFollowOn] :=
  ⟨by decide, claim_C2 handler0 assistant0 channel0 [respFollowOn] (by decide)⟩

/-- C9: for every completed turn in which no inbound message carries a
`DIALOG_FOLLOW_ON` directive — including the empty stream — the
continuation flag comes back false, its initial value. -/
theorem claim_C9 (h : Nat → List Nat) (a : SampleAssistant) (ch : ChannelState)
    (resps : List AssistResponse) :
    (∀ r ∈ resps,
      r.dialog_state_out.microphone_mode ≠ MicrophoneMode.dialogFollowOn) →
    (assist h a ch resps).2 = none →
    ((assist h a ch resps).1).continue_conversation = false := by
  intro hnf hok
  obtain ⟨hl, he⟩ := assist_ok_split h a ch resps hok
  rw [he, assistFinish_continue, processLoop_continue h resps _ hl]
  have hinit : (initTurnState a ch).continue_conversation = false := rfl
  rw [hinit]
  exact micFold_false_of_no_followOn resps hnf

/-- Witness for C9: a close-microphone-only stream and the empty
stream both yield a false continuation flag. -/
theorem claim_C9_witness :
    ((∀ r ∈ [respClose],
        r.dialog_state_out.microphone_mode ≠ MicrophoneMode.dialogFollowOn)
      ∧ (assist handler0 assistant0 channel0 [respClose]).2 = none
      ∧ ((assist handler0 assistant0 channel0 [respClose]).1).continue_conversation = false)
    ∧ (((assist handler0 assistant0 channel0 []).1).continue_conversation = false) :=
  ⟨⟨by decide, by decide,
    claim_C9 handler0 assistant0 channel0 [respClose] (by decide) (by decide)⟩,
   claim_C9 handler0 assistant0 channel0 [] (by decide) (by decide)⟩

/-- C4: the outbound sequence of a turn begins with exactly one config
message, every subsequent message is an audio chunk, so no audio chunk
precedes the config and no second config is ever emitted. -/
theorem claim_C4 (a : SampleAssistant) (ch : ChannelState)
    (audio : List (List Nat)) :
    (∃ c rest, (gen_assist_requests a ch audio).1 = AssistRequest.config c :: rest
        ∧ ∀ m ∈ rest, isConfig m = false)
    ∧ (gen_assist_requests a ch audio).1.countP isConfig = 1 := by
  constructor
  · refine ⟨assistConfigOf a ch, audio.map AssistRequest.audioIn, rfl, ?_⟩
    intro m hm
    obtain ⟨d, _, hdm⟩ := List.mem_map.1 hm
    rw [← hdm]
    rfl
  · simp only [gen_assist_requests, List.countP_cons]
    rw [audioIn_countP]
    simp [isConfig]

/-- Witness for C4: a two-chunk turn emits exactly one config. -/
theorem claim_C4_witness :
    (gen_assist_requests assistant0 channel0 [[1, 2], [3]]).1.countP isConfig = 1 :=
  (claim_C4 assistant0 channel0 [[1, 2], [3]]).2

/-- C5: a non-empty observed conversation token is stored verbatim on
the assistant object; the generator forwards the stored token verbatim
in the config it emits; end to end, a completed turn ending with token
t makes the next turn's config carry t byte for byte. -/
theorem claim_C5 (h : Nat → List Nat) (s : TurnState) (r : AssistResponse)
    (a : SampleAssistant) (ch ch2 : ChannelState) (audio : List (List Nat))
    (pre : List AssistResponse) :
    (r.dialog_state_out.conversation_state ≠ [] →
       ((processResp h s r).1).assistant.conversation_state =
         r.dialog_state_out.conversation_state)
    ∧ (∃ c rest, (gen_assist_requests a ch audio).1 = AssistRequest.config c :: rest
         ∧ c.conversation_state = a.conversation_state)
    ∧ (r.dialog_state_out.conversation_state ≠ [] →
       (assist h a ch (pre ++ [r])).2 = none →
       ∃ c rest,
         (gen_assist_requests ((assist h a ch (pre ++ [r])).1).assistant ch2 audio).1
           = AssistRequest.config c :: rest
         ∧ c.conversation_state = r.dialog_state_out.conversation_state) := by
  refine ⟨?_, ?_, ?_⟩
  · intro hne
    rw [processResp_token]
    simp [hne]
  · exact ⟨assistConfigOf a ch, audio.map AssistRequest.audioIn, rfl, rfl⟩
  · intro hne hok
    obtain ⟨hl, he⟩ := assist_ok_split h a ch (pre ++ [r]) hok
    refine ⟨_, _, rfl, ?_⟩
    show (assistConfigOf ((assist h a ch (pre ++ [r])).1).assistant ch2).conversation_state
        = r.dialog_state_out.conversation_state
    have happ := processLoop_append h pre [r] (initTurnState a ch)
    rcases hpre : processLoop h (initTurnState a ch) pre with ⟨s1, e1⟩
    rw [hpre] at happ
    cases e1 with
    | some e1 =>
      rw [happ] at hl
      simp at hl
    | none =>
      have hwhole : processLoop h (initTurnState a ch) (pre ++ [r]) =
          processResp h s1 r := by
        rw [happ]
        exact processLoop_singleton h s1 r
      rw [hwhole] at he
      have : (assistConfigOf ((assist h a ch (pre ++ [r])).1).assistant ch2).conversation_state
          = ((assist h a ch (pre ++ [r])).1).assistant.conversation_state := rfl
      rw [this, he, assistFinish_assistant, processResp_token]
      simp [hne]

/-- Witness for C5: the token `[9, 8]` is stored and then forwarded
verbatim on the next turn's config. -/
theorem claim_C5_witness :
    (respToken.dialog_state_out.conversation_state ≠ []
      ∧ ((processResp handler0 turn0 respToken).1).assistant.conversation_state =
          respToken.dialog_state_out.conversation_state)
    ∧ ((assist handler0 assistant0 channel0 [respToken]).2 = none
      ∧ ∃ c rest,
          (gen_assist_requests
             ((assist handler0 assistant0 channel0 [respToken]).1).assistant
             channel0 [[5]]).1 = AssistRequest.config c :: rest
          ∧ c.conversation_state = respToken.dialog_state_out.conversation_state) :=
  ⟨⟨by decide,
    (claim_C5 handler0 turn0 respToken assistant0 channel0 channel0 [[5]] []).1
      (by decide)⟩,
   ⟨by decide,
    (claim_C5 handler0 turn0 respToken assistant0 channel0 channel0 [[5]] []).2.2
      (by decide) (by decide)⟩⟩

/-- C10: the generator clears the is-new flag before yielding its
config, and the yielded config carries the pre-call flag; therefore in
any session — retried attempts included — only the very first emitted
config can carry true, and every later config carries false. -/
theorem claim_C10 (h : Nat → List Nat) (a : SampleAssistant) (ch : ChannelState)
    (audio : List (List Nat))
    (turns : List (List (List Nat) × List AssistResponse)) :
    ((gen_assist_requests a ch audio).2.is_new_conversation = false)
    ∧ (∀ c ∈ (gen_assist_requests a ch audio).1.filterMap configOf?,
        c.is_new_conversation = a.is_new_conversation)
    ∧ (∀ c, (sessionConfigs h a ch turns).head? = some c →
        c.is_new_conversation = a.is_new_conversation)
    ∧ (∀ c ∈ (sessionConfigs h a ch turns).tail,
        c.is_new_conversation = false) := by
  refine ⟨rfl, ?_, ?_, ?_⟩
  · intro c hc
    rw [gen_configs] at hc
    have hce : c = assistConfigOf a ch := by simpa using hc
    rw [hce]
    rfl
  · intro c hc
    cases turns with
    | nil => simp [sessionConfigs] at hc
    | cons t rest =>
      simp only [sessionConfigs, gen_configs] at hc
      simp at hc
      rw [← hc]
      rfl
  · intro c hc
    cases turns with
    | nil => simp [sessionConfigs] at hc
    | cons t rest =>
      simp only [sessionConfigs, gen_configs, List.singleton_append,
        List.tail_cons] at hc
      refine sessionConfigs_all_false h rest _ _ ?_ c hc
      rw [processLoop_is_new]
      simp [initTurnState, gen_assist_requests]

/-- Witness for C10: in a two-turn session the second turn's config
carries a false is-new flag. -/
theorem claim_C10_witness :
    ((gen_assist_requests assistant0 channel0 [[1]]).2.is_new_conversation = false)
    ∧ (assistConfigOf { assistant0 with is_new_conversation := false }
         { channel0 with recording := true } ∈
         (sessionConfigs handler0 assistant0 channel0
            [([[1]], [respFollowOn]), ([], [])]).tail)
    ∧ ((assistConfigOf { assistant0 with is_new_conversation := false }
         { channel0 with recording := true }).is_new_conversation = false) :=
  ⟨(claim_C10 handler0 assistant0 channel0 [[1]] []).1,
   by decide,
   (claim_C10 handler0 assistant0 channel0 [[1]]
      [([[1]], [respFollowOn]), ([], [])]).2.2.2 _ (by decide)⟩

/-- C3: the retry policy performs at most 3 attempts in total; success
at any attempt returns that result unchanged with no further attempt;
any failure not classified transport-unavailable propagates
immediately; three consecutive transient failures exhaust the policy
after exactly 3 attempts; and the outcome never depends on any attempt
beyond the third. -/
theorem claim_C3 {α : Type} (attempt : Nat → Except AttemptError α) :
    ((RetryPolicy_execute attempt).2 ≤ 3)
    ∧ (∀ n i (a : α), attempt i = Except.ok a →
        retryRun attempt n i = (RetryOutcome.success a, i + 1))
    ∧ (∀ n i e, attempt i = Except.error e →
        is_grpc_error_unavailable e = false →
        retryRun attempt n i = (RetryOutcome.raised e, i + 1))
    ∧ (∀ e0 e1 e2,
        attempt 0 = Except.error e0 → attempt 1 = Except.error e1 →
        attempt 2 = Except.error e2 →
        is_grpc_error_unavailable e0 = true →
        is_grpc_error_unavailable e1 = true →
        is_grpc_error_unavailable e2 = true →
        RetryPolicy_execute attempt = (RetryOutcome.exhausted e2, 3))
    ∧ (∀ attempt2 : Nat → Except AttemptError α,
        (∀ j, j < 3 → attempt j = attempt2 j) →
        RetryPolicy_execute attempt = RetryPolicy_execute attempt2) := by
  refine ⟨?_, ?_, ?_, ?_, ?_⟩
  · have hcount := retryRun_count attempt 2 0
    simpa [RetryPolicy_execute] using hcount
  · intro n i a hai
    cases n <;> simp [retryRun, hai]
  · intro n i e hai hne
    cases n <;> simp [retryRun, hai, hne]
  · intro e0 e1 e2 h0 h1 h2 u0 u1 u2
    have s0 : RetryPolicy_execute attempt = retryRun attempt 1 1 := by
      show retryRun attempt (Nat.succ 1) 0 = retryRun attempt 1 1
      simp [retryRun, h0, u0]
    have s1 : retryRun attempt 1 1 = retryRun attempt 0 2 := by
      show retryRun attempt (Nat.succ 0) 1 = retryRun attempt 0 2
      simp [retryRun, h1, u1]
    have s2 : retryRun attempt 0 2 = (RetryOutcome.exhausted e2, 3) := by
      simp [retryRun, h2, u2]
    rw [s0, s1, s2]
  · intro attempt2 hagree
    exact retryRun_congr attempt attempt2 2 0 fun j hj1 hj2 => hagree j (by omega)

/-- Witness for C3: one immediate success; one immediate non-transient
failure; three transient failures exhausting after exactly 3 attempts
and at most 3 attempts performed. -/
theorem claim_C3_witness :
    (retryRun (fun _ => Except.ok (42 : Nat)) 2 0 = (RetryOutcome.success 42, 1))
    ∧ (retryRun
        (fun _ : Nat =>
          (Except.error AttemptError.otherException : Except AttemptError Nat)) 2 0
        = (RetryOutcome.raised AttemptError.otherException, 1))
    ∧ (RetryPolicy_execute
        (fun _ : Nat =>
          (Except.error (AttemptError.rpcError StatusCode.unavailable) :
            Except AttemptError Nat))
        = (RetryOutcome.exhausted (AttemptError.rpcError StatusCode.unavailable), 3))
    ∧ ((RetryPolicy_execute
        (fun _ : Nat =>
          (Except.error (AttemptError.rpcError StatusCode.unavailable) :
            Except AttemptError Nat))).2 ≤ 3) :=
  ⟨(claim_C3 (fun _ => Except.ok (42 : Nat))).2.1 2 0 42 rfl,
   (claim_C3 (fun _ : Nat =>
      (Except.error AttemptError.otherException : Except AttemptError Nat))).2.2.1
     2 0 AttemptError.otherException rfl rfl,
   (claim_C3 (fun _ : Nat =>
      (Except.error (AttemptError.rpcError StatusCode.unavailable) :
        Except AttemptError Nat))).2.2.2.1 _ _ _ rfl rfl rfl rfl rfl rfl,
   (claim_C3 (fun _ : Nat =>
      (Except.error (AttemptError.rpcError StatusCode.unavailable) :
        Except AttemptError Nat))).1⟩

/-- C6: after the inbound stream drains without error, the epilogue
first joins the accumulated pending-action handles (all of them, when
any exist), then stops playback unconditionally as the final recorded
event before the turn returns, and the channel ends not playing even
if no playback or futures ever occurred. -/
theorem claim_C6 (h : Nat → List Nat) (a : SampleAssistant) (ch : ChannelState)
    (resps : List AssistResponse) :
    (assist h a ch resps).2 = none →
    ((assist h a ch resps).1).channel.playing = false
    ∧ ((assist h a ch resps).1).device_actions_futures =
        ((processLoop h (initTurnState a ch) resps).1).device_actions_futures
    ∧ ((assist h a ch resps).1).trace =
        ((processLoop h (initTurnState a ch) resps).1).trace ++
          (if ((processLoop h (initTurnState a ch) resps).1).device_actions_futures.length ≠ 0
           then [Event.waitActions
             ((processLoop h (initTurnState a ch) resps).1).device_actions_futures]
           else []) ++
          [Event.stopPlayback] := by
  intro hok
  obtain ⟨hl, he⟩ := assist_ok_split h a ch resps hok
  refine ⟨?_, ?_, ?_⟩
  · rw [he, assistFinish_playing]
  · rw [he, assistFinish_futures]
  · rw [he, assistFinish_trace]

/-- Witness for C6: a turn with one device action joins its future and
then stops playback; a turn with no messages still stops playback. -/
theorem claim_C6_witness :
    ((assist handler0 assistant0 channel0 [respDevice]).2 = none
      ∧ ((assist handler0 assistant0 channel0 [respDevice]).1).trace =
          ((processLoop handler0 (initTurnState assistant0 channel0) [respDevice]).1).trace ++
            (if ((processLoop handler0 (initTurnState assistant0 channel0)
                   [respDevice]).1).device_actions_futures.length ≠ 0
             then [Event.waitActions
               ((processLoop handler0 (initTurnState assistant0 channel0)
                  [respDevice]).1).device_actions_futures]
             else []) ++
            [Event.stopPlayback])
    ∧ ((assist handler0 assistant0 channel0 []).1).channel.playing = false :=
  ⟨⟨by decide,
    (claim_C6 handler0 assistant0 channel0 [respDevice] (by decide)).2.2⟩,
   (claim_C6 handler0 assistant0 channel0 [] (by decide)).1⟩

/-- C7 counterexample: a malformed device-action payload followed by a
follow-on directive makes the JSON decode error escape the turn, and
the follow-on message is never processed — refuting, at this input,
that the command is skipped with the turn continuing uninterrupted. -/
theorem claim_C7_counterexample :
    (assist handler0 assistant0 channel0 [respMalformed, respFollowOn]).2 =
      some TurnError.jsonDecodeError
    ∧ ((assist handler0 assistant0 channel0
          [respMalformed, respFollowOn]).1).continue_conversation = false := by
  decide

/-- C7 amended: when a present device-action payload fails to parse as
JSON, the decode error propagates past the turn boundary at that
message: the turn aborts there, the epilogue is skipped, and no later
inbound message is processed (the result does not depend on the rest
of the stream). -/
theorem claim_C7 (h : Nat → List Nat) (a : SampleAssistant) (ch : ChannelState)
    (pre post : List AssistResponse) (r : AssistResponse) :
    r.device_request_json = DeviceRequestJson.malformed →
    (processLoop h (initTurnState a ch) pre).2 = none →
    assist h a ch (pre ++ r :: post) =
      ((processResp h ((processLoop h (initTurnState a ch) pre).1) r).1,
       some TurnError.jsonDecodeError) := by
  intro hmal hpre
  have happ := processLoop_append h pre (r :: post) (initTurnState a ch)
  unfold assist
  rcases hp : processLoop h (initTurnState a ch) pre with ⟨s1, e1⟩
  rw [hp] at happ hpre
  cases e1 with
  | some e1 => simp at hpre
  | none =>
    have herr : (processResp h s1 r).2 = some TurnError.jsonDecodeError := by
      rw [processResp_err]
      simp [hmal]
    rcases hr : processResp h s1 r with ⟨s2, e2⟩
    rw [hr] at herr
    simp at herr
    subst herr
    have hloop : processLoop h (initTurnState a ch) (pre ++ r :: post) =
        (s2, some TurnError.jsonDecodeError) := by
      rw [happ]
      simp only [processLoop]
      rw [hr]
    rw [hloop]

/-- Witness for C7 amended: after one harmless message, the malformed
payload aborts the turn and the trailing follow-on is ignored. -/
theorem claim_C7_witness :
    respMalformed.device_request_json = DeviceRequestJson.malformed
    ∧ (processLoop handler0 (initTurnState assistant0 channel0) [resp0]).2 = none
    ∧ assist handler0 assistant0 channel0 ([resp0] ++ respMalformed :: [respFollowOn]) =
        ((processResp handler0
            ((processLoop handler0 (initTurnState assistant0 channel0) [resp0]).1)
            respMalformed).1,
         some TurnError.jsonDecodeError) :=
  ⟨rfl, by decide,
   claim_C7 handler0 assistant0 channel0 [resp0] [respFollowOn] respMalformed rfl
     (by decide)⟩

/-- C8 counterexample: teardown while an exception is propagating does
not close the stream — the close count stays 0, refuting closure
exactly once regardless of whether the last turn failed. -/
theorem claim_C8_counterexample :
    ¬ ((SampleAssistant_exit { close_count := 0 } true).1.close_count = 1) := by
  decide

/-- C8 amended: teardown without a propagating exception closes the
channel exactly once and suppresses nothing; teardown with a
propagating exception returns false immediately and does not close the
channel at all. -/
theorem claim_C8 (stream : ConversationStream) :
    ((SampleAssistant_exit stream false).1.close_count = stream.close_count + 1
      ∧ (SampleAssistant_exit stream false).2 = false)
    ∧ ((SampleAssistant_exit stream true).1.close_count = stream.close_count
      ∧ (SampleAssistant_exit stream true).2 = false) := by
  refine ⟨⟨?_, ?_⟩, ⟨?_, ?_⟩⟩ <;> rfl

end PushToTalk
